import Mathlib

/-!
Verification of `src/modules/token_embedders/pretrained_embedding_mismatched_embedder.py`
(class `PretrainedEmbeddingMismatchedEmbedder`).

Tensors are modelled as dimension-annotated total functions over `ℕ` indices.
Integer tensors carry `ℤ` entries (torch `LongTensor`); floating-point tensors
carry exact rationals `ℚ` for finite values, and the final division step (the
only operation of the module that can produce a non-finite float) is modelled
by `Fl`, a float value that is either a finite rational or `+inf`, `-inf`, `nan`,
with IEEE-754 division-by-zero semantics.

The module's `forward` delegates to two collaborators:
  * `self._matched_embedder` (`PretrainedEmbeddingEmbedder`), a file of the same
    repository that is not included under `src/`; it is modelled from the spec
    (see `PretrainedEmbeddingEmbedder` below).
  * `allennlp.nn.util.batched_span_select` (external library, 2020-era AllenNLP),
    embedded below from its library source: spans are gathered counting DOWN from
    `span_ends`, the span mask is `(idx <= span_width) & (span_end - idx >= 0)`,
    raw indices are clamped with `relu`, and `flatten_and_batch_shift_indices`
    raises a `ConfigurationError` when `torch.max(indices) >= sequence_length`
    (`torch.min(indices) < 0` is impossible after the `relu`).  `torch.max` on an
    empty tensor raises a `RuntimeError`.
-/

namespace MismatchedEmbedder

/-- A 2-D tensor: dimensions plus a total entry function. -/
structure Tensor2 (α : Type) where
  dim0 : ℕ
  dim1 : ℕ
  val : ℕ → ℕ → α

/-- A 3-D tensor. -/
structure Tensor3 (α : Type) where
  dim0 : ℕ
  dim1 : ℕ
  dim2 : ℕ
  val : ℕ → ℕ → ℕ → α

/-- A 4-D tensor. -/
structure Tensor4 (α : Type) where
  dim0 : ℕ
  dim1 : ℕ
  dim2 : ℕ
  dim3 : ℕ
  val : ℕ → ℕ → ℕ → ℕ → α

/-- A floating-point value: a finite (exact) rational, an infinity, or NaN. -/
inductive Fl where
  | fin : ℚ → Fl
  | posInf : Fl
  | negInf : Fl
  | nan : Fl
  deriving DecidableEq

/-- Whether a float value is finite (not NaN and not an infinity). -/
def Fl.isFinite : Fl → Bool
  | .fin _ => true
  | _ => false

/-- IEEE-754 division of a finite float by a nonnegative integer count
(the divisor produced by summing a boolean mask): a zero divisor yields
`sign(numerator) * inf`, and `0 / 0` yields NaN; no error is ever raised. -/
def fl_div_count (a : ℚ) (n : ℕ) : Fl :=
  if n ≠ 0 then .fin (a / (n : ℚ))
  else if 0 < a then .posInf
  else if a < 0 then .negInf
  else .nan

/-- Modelled from the spec: `PretrainedEmbeddingEmbedder` is a file of this
repository that is not included under `src/`.  Per the spec it is an opaque
collaborator: "given token ids and a mask, returns per-wordpiece embeddings"
of shape batch × num_wordpieces × embedding_size, and its output-dimension
query reports the (positive) embedding dimension of the pretrained file,
a fixed value independent of any forward call. -/
structure PretrainedEmbeddingEmbedder where
  output_dim : ℕ
  output_dim_pos : 0 < output_dim
  embed_val : Tensor2 ℤ → Tensor2 ℤ → Option (Tensor2 ℤ) → Option (Tensor2 ℤ) →
    ℕ → ℕ → ℕ → ℚ

/-- The inner embedder's output-dimension query (`get_output_dim` on
`PretrainedEmbeddingEmbedder`). -/
def PretrainedEmbeddingEmbedder.get_output_dim (e : PretrainedEmbeddingEmbedder) : ℕ :=
  e.output_dim

/-- The module under verification.  Its constructor stores exactly one field:
`self._matched_embedder = PretrainedEmbeddingEmbedder(pretrained_file, encoder,
trainable)`. -/
structure PretrainedEmbeddingMismatchedEmbedder where
  matched_embedder : PretrainedEmbeddingEmbedder

/-- `get_output_dim(self): return self._matched_embedder.get_output_dim()`. -/
def get_output_dim (m : PretrainedEmbeddingMismatchedEmbedder) : ℕ :=
  m.matched_embedder.get_output_dim

/-- The call `self._matched_embedder(token_ids, wordpiece_mask, type_ids=type_ids,
segment_concat_mask=segment_concat_mask)`: a fresh tensor of shape
batch × num_wordpieces × embedding_size whose entries are supplied by the
(opaque) inner embedder. -/
def inner_embeddings (m : PretrainedEmbeddingMismatchedEmbedder)
    (token_ids wordpiece_mask : Tensor2 ℤ)
    (type_ids segment_concat_mask : Option (Tensor2 ℤ)) : Tensor3 ℚ :=
  ⟨token_ids.dim0, token_ids.dim1, m.matched_embedder.output_dim,
    m.matched_embedder.embed_val token_ids wordpiece_mask type_ids segment_concat_mask⟩

/-! Model of `allennlp.nn.util.batched_span_select` (and the index check of
`flatten_and_batch_shift_indices` / `batched_index_select` that it calls). -/

/-- `span_starts` from `spans.split(1, dim=-1)`: the inclusive start index. -/
def span_starts (spans : Tensor3 ℤ) (i j : ℕ) : ℤ := spans.val i j 0

/-- `span_ends` from `spans.split(1, dim=-1)`: the inclusive end index. -/
def span_ends (spans : Tensor3 ℤ) (i j : ℕ) : ℤ := spans.val i j 1

/-- `span_widths = span_ends - span_starts` (off by one: ends are inclusive). -/
def span_width (spans : Tensor3 ℤ) (i j : ℕ) : ℤ :=
  span_ends spans i j - span_starts spans i j

/-- Maximum of a nonempty integer list, as computed by `torch.max` (the guard
for emptiness is applied at the call sites, where torch raises). -/
def int_list_max : List ℤ → ℤ
  | [] => 0
  | x :: xs => xs.foldl max x

/-- Maximum of a list of naturals (`torch.max` on a nonnegative tensor). -/
def nat_list_max (l : List ℕ) : ℕ := l.foldl max 0

/-- All entries of the `span_widths` tensor, flattened. -/
def widths_list (spans : Tensor3 ℤ) : List ℤ :=
  ((List.range spans.dim0).map fun i =>
    (List.range spans.dim1).map fun j => span_width spans i j).flatten

/-- `max_batch_span_width = span_widths.max().item() + 1`. -/
def max_batch_span_width (spans : Tensor3 ℤ) : ℤ :=
  int_list_max (widths_list spans) + 1

/-- The number of positions along the span axis (`max_batch_span_width` as a
natural number; a nonpositive value yields an empty range vector). -/
def span_axis_len (spans : Tensor3 ℤ) : ℕ := (max_batch_span_width spans).toNat

/-- `span_mask = (max_span_range_indices <= span_widths) & (raw_span_indices >= 0)`
where `raw_span_indices = span_ends - max_span_range_indices`.  Note that this
mask is computed from the span bounds alone: `wordpiece_mask` is not an input
of `batched_span_select`. -/
def span_mask_val (spans : Tensor3 ℤ) (i j k : ℕ) : Bool :=
  decide ((k : ℤ) ≤ span_width spans i j) &&
    decide (0 ≤ span_ends spans i j - (k : ℤ))

/-- `span_indices = torch.nn.functional.relu(raw_span_indices.float()).long()`:
the gathered wordpiece index for span position `k`, counting down from the end
and clamped at 0. -/
def span_index (spans : Tensor3 ℤ) (i j k : ℕ) : ℕ :=
  (span_ends spans i j - (k : ℤ)).toNat

/-- All entries of the `span_indices` tensor, flattened (the tensor that
`flatten_and_batch_shift_indices` bound-checks with `torch.max`). -/
def indices_list (spans : Tensor3 ℤ) : List ℕ :=
  ((List.range spans.dim0).map fun i =>
    ((List.range spans.dim1).map fun j =>
      (List.range (span_axis_len spans)).map fun k => span_index spans i j k).flatten).flatten

/-- The span-mask tensor returned by `batched_span_select`
(batch × num_spans × max_batch_span_width, boolean). -/
def span_mask_tensor (spans : Tensor3 ℤ) : Tensor3 Bool :=
  ⟨spans.dim0, spans.dim1, span_axis_len spans, fun i j k => span_mask_val spans i j k⟩

/-- The span-embeddings tensor returned by `batched_span_select`
(batch × num_spans × max_batch_span_width × embedding_dim): entry `k` of span
`(i, j)` is `target[i][span_indices[i][j][k]]`, a fresh gather
(`index_select` copies; it never aliases `target`). -/
def span_embeddings_tensor (target : Tensor3 ℚ) (spans : Tensor3 ℤ) : Tensor4 ℚ :=
  ⟨spans.dim0, spans.dim1, span_axis_len spans, target.dim2,
    fun i j k d => target.val i (span_index spans i j k) d⟩

/-- Error raised by `flatten_and_batch_shift_indices` when an index is out of
range of the sequence dimension. -/
def configuration_error_msg : String :=
  "ConfigurationError: all elements in indices should be in range"

/-- Error raised by `torch.max` on an empty tensor. -/
def empty_max_error_msg : String :=
  "RuntimeError: max on an empty tensor"

/-- Model of `allennlp.nn.util.batched_span_select(target, spans)` together with
the bound check performed inside `batched_index_select` /
`flatten_and_batch_shift_indices`:
  * `span_widths.max()` raises on an empty tensor (batch or span dimension 0);
  * `torch.max(indices)` inside `flatten_and_batch_shift_indices` raises when
    the index tensor is empty (`max_batch_span_width <= 0`);
  * a `ConfigurationError` is raised when `torch.max(indices) >= target.size(1)`
    (the relu makes `torch.min(indices) < 0` impossible);
  * otherwise the gathered span embeddings and the span mask are returned. -/
def batched_span_select (target : Tensor3 ℚ) (spans : Tensor3 ℤ) :
    Except String (Tensor4 ℚ × Tensor3 Bool) :=
  if spans.dim0 = 0 ∨ spans.dim1 = 0 then .error empty_max_error_msg
  else if span_axis_len spans = 0 then .error empty_max_error_msg
  else if target.dim1 ≤ nat_list_max (indices_list spans) then .error configuration_error_msg
  else .ok (span_embeddings_tensor target spans, span_mask_tensor spans)

/-- `span_mask.sum(2)` after `span_mask = span_mask.unsqueeze(-1)`: the divisor
`span_embeddings_len` of the forward computation, the count of mask-true
positions along the span axis. -/
def span_embeddings_len_val (sm : Tensor3 Bool) (i j : ℕ) : ℕ :=
  ∑ k ∈ Finset.range sm.dim2, (if sm.val i j k then 1 else 0)

/-- Model of `PretrainedEmbeddingMismatchedEmbedder.forward`, line by line:

  * `embeddings = self._matched_embedder(token_ids, wordpiece_mask, ...)`;
  * `span_embeddings, span_mask = util.batched_span_select(embeddings.contiguous(), offsets)`
    (an uncaught library exception propagates to the caller — there is no local
    recovery, hence the `Except`);
  * `span_mask = span_mask.unsqueeze(-1)` and `span_embeddings *= span_mask`
    (zero out paddings; the broadcast multiply by the boolean mask);
  * `span_embeddings_sum = span_embeddings.sum(2)`;
  * `span_embeddings_len = span_mask.sum(2)`;
  * `orig_embeddings = span_embeddings_sum / span_embeddings_len` (float tensor
    divided by an integer count tensor, broadcast over the embedding axis);
  * `return orig_embeddings`.

The argument `mask` (validity of original-token slots) is received but never
used by the body, exactly as in the source. -/
def forward (m : PretrainedEmbeddingMismatchedEmbedder)
    (token_ids mask : Tensor2 ℤ) (offsets : Tensor3 ℤ) (wordpiece_mask : Tensor2 ℤ)
    (type_ids segment_concat_mask : Option (Tensor2 ℤ)) :
    Except String (Tensor3 Fl) :=
  let embeddings : Tensor3 ℚ :=
    inner_embeddings m token_ids wordpiece_mask type_ids segment_concat_mask
  match batched_span_select embeddings offsets with
  | .error e => .error e
  | .ok (span_embeddings0, span_mask) =>
    let span_embeddings : Tensor4 ℚ :=
      ⟨span_embeddings0.dim0, span_embeddings0.dim1, span_embeddings0.dim2,
        span_embeddings0.dim3,
        fun i j k d => span_embeddings0.val i j k d * (if span_mask.val i j k then 1 else 0)⟩
    let span_embeddings_sum : Tensor3 ℚ :=
      ⟨span_embeddings.dim0, span_embeddings.dim1, span_embeddings.dim3,
        fun i j d => ∑ k ∈ Finset.range span_embeddings.dim2, span_embeddings.val i j k d⟩
    .ok ⟨span_embeddings_sum.dim0, span_embeddings_sum.dim1, span_embeddings_sum.dim2,
      fun i j d =>
        fl_div_count (span_embeddings_sum.val i j d) (span_embeddings_len_val span_mask i j)⟩

/-- Whether a call completed without raising. -/
def call_ok {ε α : Type} : Except ε α → Bool
  | .ok _ => true
  | .error _ => false

/-- Dimensions of the returned tensor of a completed forward call. -/
def out_dims : Except String (Tensor3 Fl) → Option (ℕ × ℕ × ℕ)
  | .ok t => some (t.dim0, t.dim1, t.dim2)
  | .error _ => none

/-- Entry `(i, j, d)` of the returned tensor of a completed forward call
(NaN for a raised call; only used beneath a `call_ok` hypothesis). -/
def out_val (r : Except String (Tensor3 Fl)) (i j d : ℕ) : Fl :=
  match r with
  | .ok t => t.val i j d
  | .error _ => .nan

/-- The tensor returned by `forward` on its success path (the `orig_embeddings`
of the source), written out once so lemmas can name it: entry `(i, j, d)` is
the masked span sum divided by the span-mask count. -/
def forward_ok_output (m : PretrainedEmbeddingMismatchedEmbedder)
    (token_ids wordpiece_mask : Tensor2 ℤ) (offsets : Tensor3 ℤ)
    (type_ids segment_concat_mask : Option (Tensor2 ℤ)) : Tensor3 Fl :=
  let embeddings : Tensor3 ℚ :=
    inner_embeddings m token_ids wordpiece_mask type_ids segment_concat_mask
  let se : Tensor4 ℚ := span_embeddings_tensor embeddings offsets
  let sm : Tensor3 Bool := span_mask_tensor offsets
  ⟨se.dim0, se.dim1, se.dim3,
    fun i j d =>
      fl_div_count
        (∑ k ∈ Finset.range se.dim2, se.val i j k d * (if sm.val i j k then 1 else 0))
        (span_embeddings_len_val sm i j)⟩

/-!
Heap model, for the frame property of `forward` (no input tensor is mutated).
A heap is a list of tensor values addressed by allocation order; `forward_heap`
replays `forward` with every tensor-producing torch call modelled as a fresh
allocation, and the single in-place operation of the source
(`span_embeddings *= span_mask`) modelled as a store to the address of the
tensor it targets — the fresh gather output of `batched_span_select`.
-/

/-- A tensor value stored on the heap. -/
inductive Val where
  | vi2 : Tensor2 ℤ → Val
  | vi3 : Tensor3 ℤ → Val
  | vq3 : Tensor3 ℚ → Val
  | vq4 : Tensor4 ℚ → Val
  | vb3 : Tensor3 Bool → Val
  | vn2 : Tensor2 ℕ → Val
  | vf3 : Tensor3 Fl → Val
  | vnone : Val

/-- Read a 2-D integer tensor stored at a heap address. -/
def Val.asI2 : Val → Tensor2 ℤ
  | .vi2 t => t
  | _ => ⟨0, 0, fun _ _ => 0⟩

/-- Read a 3-D integer tensor stored at a heap address. -/
def Val.asI3 : Val → Tensor3 ℤ
  | .vi3 t => t
  | _ => ⟨0, 0, 0, fun _ _ _ => 0⟩

/-- Dereference a heap address. -/
def heap_read (h : List Val) (r : ℕ) : Val := h.getD r .vnone

/-- `forward` over an explicit heap.  The input tensors are passed by address;
every collaborator call allocates its result fresh (as torch's out-of-place
operations do), and `span_embeddings *= span_mask` stores through the address
of the span-selection output.  The heap is returned alongside the result so the
frame of the call is observable on the error path too. -/
def forward_heap (m : PretrainedEmbeddingMismatchedEmbedder) (h : List Val)
    (token_ids_ref mask_ref offsets_ref wordpiece_mask_ref : ℕ)
    (type_ids_ref segment_concat_mask_ref : Option ℕ) : List Val × Except String ℕ :=
  let token_ids := (heap_read h token_ids_ref).asI2
  let offsets := (heap_read h offsets_ref).asI3
  let wordpiece_mask := (heap_read h wordpiece_mask_ref).asI2
  let type_ids := type_ids_ref.map fun r => (heap_read h r).asI2
  let segment_concat_mask := segment_concat_mask_ref.map fun r => (heap_read h r).asI2
  -- embeddings = self._matched_embedder(...): fresh result tensor
  let embeddings := inner_embeddings m token_ids wordpiece_mask type_ids segment_concat_mask
  let h1 := h ++ [Val.vq3 embeddings]
  -- embeddings.contiguous(): at most a fresh copy, never a mutation
  let h2 := h1 ++ [Val.vq3 embeddings]
  match batched_span_select embeddings offsets with
  | .error e => (h2, .error e)
  | .ok (se, sm) =>
    -- the gather output and the span mask are fresh allocations
    let se_ref := h2.length
    let h3 := h2 ++ [Val.vq4 se]
    let h4 := h3 ++ [Val.vb3 sm]
    -- span_mask = span_mask.unsqueeze(-1) is a view (no write);
    -- span_embeddings *= span_mask writes in place through se_ref
    let se2 : Tensor4 ℚ :=
      ⟨se.dim0, se.dim1, se.dim2, se.dim3,
        fun i j k d => se.val i j k d * (if sm.val i j k then 1 else 0)⟩
    let h5 := h4.set se_ref (Val.vq4 se2)
    -- span_embeddings_sum = span_embeddings.sum(2): fresh
    let ssum : Tensor3 ℚ :=
      ⟨se2.dim0, se2.dim1, se2.dim3,
        fun i j d => ∑ k ∈ Finset.range se2.dim2, se2.val i j k d⟩
    let h6 := h5 ++ [Val.vq3 ssum]
    -- span_embeddings_len = span_mask.sum(2): fresh
    let slen : Tensor2 ℕ := ⟨sm.dim0, sm.dim1, fun i j => span_embeddings_len_val sm i j⟩
    let h7 := h6 ++ [Val.vn2 slen]
    -- orig_embeddings = span_embeddings_sum / span_embeddings_len: fresh
    let orig : Tensor3 Fl :=
      ⟨ssum.dim0, ssum.dim1, ssum.dim2,
        fun i j d => fl_div_count (ssum.val i j d) (slen.val i j)⟩
    let h8 := h7 ++ [Val.vf3 orig]
    (h8, .ok h7.length)

/-! Concrete instances used to evaluate the development on closed inputs. -/

/-- An inner embedder with embedding size 1 whose wordpiece embedding at
position `p` is `f p`, ignoring its other inputs. -/
def ex_embedder (f : ℕ → ℚ) : PretrainedEmbeddingEmbedder :=
  ⟨1, Nat.one_pos, fun _ _ _ _ => fun _ p _ => f p⟩

/-- A module wrapping `ex_embedder f`. -/
def ex_module (f : ℕ → ℚ) : PretrainedEmbeddingMismatchedEmbedder := ⟨ex_embedder f⟩

/-- A batch-size-one 2-D integer tensor whose row is given by `f`. -/
def ex_row (n : ℕ) (f : ℕ → ℤ) : Tensor2 ℤ := ⟨1, n, fun _ p => f p⟩

/-- A batch-size-one offsets tensor whose `s` span pairs are given by `f`. -/
def ex_offsets (s : ℕ) (f : ℕ → ℤ × ℤ) : Tensor3 ℤ :=
  ⟨1, s, 2, fun _ j c => if c = 0 then (f j).1 else (f j).2⟩

/-! Helper lemmas about list maxima and the span-selection arithmetic. -/

theorem le_foldl_max {α : Type} [LinearOrder α] (l : List α) (b : α) : b ≤ l.foldl max b := by
  induction l generalizing b with
  | nil => exact le_rfl
  | cons x xs ih => exact le_trans (le_max_left b x) (ih (max b x))

theorem mem_le_foldl_max {α : Type} [LinearOrder α] {x : α} {l : List α} (h : x ∈ l) (b : α) :
    x ≤ l.foldl max b := by
  induction l generalizing b with
  | nil => cases h
  | cons y ys ih =>
    rcases List.mem_cons.mp h with h1 | h2
    · subst h1
      exact le_trans (le_max_right b x) (le_foldl_max ys (max b x))
    · exact ih h2 (max b y)

theorem foldl_max_lt {α : Type} [LinearOrder α] {n : α} {l : List α} (b : α) (hb : b < n)
    (hall : ∀ x ∈ l, x < n) : l.foldl max b < n := by
  induction l generalizing b with
  | nil => exact hb
  | cons y ys ih =>
    exact ih (max b y) (max_lt hb (hall y (List.mem_cons_self y ys))) fun x hx =>
      hall x (List.mem_cons_of_mem y hx)

theorem mem_le_int_list_max {x : ℤ} {l : List ℤ} (h : x ∈ l) : x ≤ int_list_max l := by
  cases l with
  | nil => cases h
  | cons y ys =>
    rcases List.mem_cons.mp h with h1 | h2
    · subst h1
      exact le_foldl_max ys x
    · exact mem_le_foldl_max h2 y

theorem mem_le_nat_list_max {x : ℕ} {l : List ℕ} (h : x ∈ l) : x ≤ nat_list_max l :=
  mem_le_foldl_max h 0

theorem nat_list_max_lt {n : ℕ} {l : List ℕ} (hn : 0 < n) (hall : ∀ x ∈ l, x < n) :
    nat_list_max l < n :=
  foldl_max_lt 0 hn hall

theorem span_width_mem_widths_list {spans : Tensor3 ℤ} {i j : ℕ}
    (hi : i < spans.dim0) (hj : j < spans.dim1) :
    span_width spans i j ∈ widths_list spans := by
  unfold widths_list
  rw [List.mem_flatten]
  refine ⟨(List.range spans.dim1).map fun j => span_width spans i j, ?_, ?_⟩
  · exact List.mem_map_of_mem _ (List.mem_range.mpr hi)
  · exact List.mem_map_of_mem _ (List.mem_range.mpr hj)

theorem span_index_mem_indices_list {spans : Tensor3 ℤ} {i j k : ℕ}
    (hi : i < spans.dim0) (hj : j < spans.dim1) (hk : k < span_axis_len spans) :
    span_index spans i j k ∈ indices_list spans := by
  unfold indices_list
  rw [List.mem_flatten]
  refine ⟨((List.range spans.dim1).map fun j =>
    (List.range (span_axis_len spans)).map fun k => span_index spans i j k).flatten, ?_, ?_⟩
  · exact List.mem_map_of_mem _ (List.mem_range.mpr hi)
  · rw [List.mem_flatten]
    refine ⟨(List.range (span_axis_len spans)).map fun k => span_index spans i j k, ?_, ?_⟩
    · exact List.mem_map_of_mem _ (List.mem_range.mpr hj)
    · exact List.mem_map_of_mem _ (List.mem_range.mpr hk)

theorem indices_list_forall {spans : Tensor3 ℤ} {x : ℕ} (hx : x ∈ indices_list spans) :
    ∃ i < spans.dim0, ∃ j < spans.dim1, ∃ k < span_axis_len spans,
      x = span_index spans i j k := by
  unfold indices_list at hx
  rw [List.mem_flatten] at hx
  obtain ⟨l, hl, hxl⟩ := hx
  rw [List.mem_map] at hl
  obtain ⟨i, hi, rfl⟩ := hl
  rw [List.mem_flatten] at hxl
  obtain ⟨l2, hl2, hxl2⟩ := hxl
  rw [List.mem_map] at hl2
  obtain ⟨j, hj, rfl⟩ := hl2
  rw [List.mem_map] at hxl2
  obtain ⟨k, hk, rfl⟩ := hxl2
  exact ⟨i, List.mem_range.mp hi, j, List.mem_range.mp hj, k, List.mem_range.mp hk, rfl⟩

theorem span_width_lt_span_axis_len {spans : Tensor3 ℤ} {i j : ℕ}
    (hi : i < spans.dim0) (hj : j < spans.dim1) (hw : 0 ≤ span_width spans i j) :
    (span_width spans i j).toNat + 1 ≤ span_axis_len spans := by
  have h := mem_le_int_list_max (span_width_mem_widths_list hi hj)
  unfold span_axis_len max_batch_span_width
  omega

theorem span_axis_len_ne_zero {spans : Tensor3 ℤ} {i j : ℕ}
    (hi : i < spans.dim0) (hj : j < spans.dim1) (hw : 0 ≤ span_width spans i j) :
    span_axis_len spans ≠ 0 := by
  have h := span_width_lt_span_axis_len hi hj hw
  omega

theorem nat_list_max_indices_lt {spans : Tensor3 ℤ} {n : ℕ} (hn : 0 < n)
    (hends : ∀ i < spans.dim0, ∀ j < spans.dim1, span_ends spans i j < (n : ℤ)) :
    nat_list_max (indices_list spans) < n := by
  refine nat_list_max_lt hn fun x hx => ?_
  obtain ⟨i, hi, j, hj, k, hk, rfl⟩ := indices_list_forall hx
  have h := hends i hi j hj
  unfold span_index
  omega

theorem batched_span_select_eq_ok {target : Tensor3 ℚ} {spans : Tensor3 ℤ}
    (hb : spans.dim0 ≠ 0) (hs : spans.dim1 ≠ 0) (hK : span_axis_len spans ≠ 0)
    (hidx : nat_list_max (indices_list spans) < target.dim1) :
    batched_span_select target spans =
      .ok (span_embeddings_tensor target spans, span_mask_tensor spans) := by
  unfold batched_span_select
  rw [if_neg (by tauto), if_neg hK, if_neg (not_le.mpr hidx)]

theorem batched_span_select_ok_elim {target : Tensor3 ℚ} {spans : Tensor3 ℤ}
    {p : Tensor4 ℚ × Tensor3 Bool} (h : batched_span_select target spans = .ok p) :
    p = (span_embeddings_tensor target spans, span_mask_tensor spans) := by
  unfold batched_span_select at h
  split_ifs at h
  exact (Except.ok.inj h).symm

/-- Auxiliary counting identity used for the divisor. -/
theorem sum_range_ite_lt (K m : ℕ) :
    (∑ k ∈ Finset.range K, if k < m then (1 : ℕ) else 0) = min m K := by
  induction K with
  | zero => simp
  | succ n ih =>
    rw [Finset.sum_range_succ, ih]
    split_ifs with h
    · omega
    · omega

/-- The divisor of a nonempty in-bounds span `[start, end]` is the span size
`end - start + 1`: the count of mask-true positions along the span axis. -/
theorem span_embeddings_len_eq {spans : Tensor3 ℤ} {i j : ℕ}
    (hi : i < spans.dim0) (hj : j < spans.dim1)
    (h0 : 0 ≤ span_starts spans i j) (hse : span_starts spans i j ≤ span_ends spans i j) :
    span_embeddings_len_val (span_mask_tensor spans) i j =
      (span_width spans i j).toNat + 1 := by
  have hw : 0 ≤ span_width spans i j := by unfold span_width; omega
  have hwe : span_width spans i j ≤ span_ends spans i j := by
    unfold span_width
    omega
  have hK := span_width_lt_span_axis_len hi hj hw
  unfold span_embeddings_len_val span_mask_tensor
  simp only
  have hcongr : ∀ k ∈ Finset.range (span_axis_len spans),
      (if span_mask_val spans i j k then (1 : ℕ) else 0) =
        (if k < (span_width spans i j).toNat + 1 then 1 else 0) := by
    intro k _
    have hiff : (span_mask_val spans i j k = true) ↔ k < (span_width spans i j).toNat + 1 := by
      unfold span_mask_val
      simp only [Bool.and_eq_true, decide_eq_true_eq]
      omega
    rw [if_congr hiff rfl rfl]
  rw [Finset.sum_congr rfl hcongr, sum_range_ite_lt]
  omega

/-- The masked span sum over the padded span axis of a nonempty in-bounds span
equals the plain sum of the target rows at positions `start .. end` (the library
gathers the span in reverse, from `end` down to `start`; the sum is invariant
under that reversal). -/
theorem masked_span_sum_eq {target : Tensor3 ℚ} {spans : Tensor3 ℤ} {i j d : ℕ}
    (hi : i < spans.dim0) (hj : j < spans.dim1)
    (h0 : 0 ≤ span_starts spans i j) (hse : span_starts spans i j ≤ span_ends spans i j) :
    (∑ k ∈ Finset.range (span_axis_len spans),
        target.val i (span_index spans i j k) d * (if span_mask_val spans i j k then 1 else 0)) =
      ∑ p ∈ Finset.range ((span_width spans i j).toNat + 1),
        target.val i ((span_starts spans i j).toNat + p) d := by
  have hw : 0 ≤ span_width spans i j := by unfold span_width; omega
  have hwe : span_width spans i j ≤ span_ends spans i j := by
    unfold span_width
    omega
  have hK := span_width_lt_span_axis_len hi hj hw
  have hstep1 : (∑ k ∈ Finset.range (span_axis_len spans),
      target.val i (span_index spans i j k) d * (if span_mask_val spans i j k then 1 else 0)) =
      ∑ k ∈ Finset.range ((span_width spans i j).toNat + 1),
        target.val i (span_index spans i j k) d * (if span_mask_val spans i j k then 1 else 0) := by
    refine (Finset.sum_subset ?_ ?_).symm
    · exact Finset.range_subset.mpr hK
    · intro k _ hk
      rw [Finset.mem_range, not_lt] at hk
      have hmf : span_mask_val spans i j k = false := by
        unfold span_mask_val
        simp only [Bool.and_eq_false_iff, decide_eq_false_iff_not, not_le]
        left
        omega
      simp [hmf]
  rw [hstep1]
  have hstep2 : ∀ k ∈ Finset.range ((span_width spans i j).toNat + 1),
      target.val i (span_index spans i j k) d * (if span_mask_val spans i j k then 1 else 0) =
        target.val i ((span_starts spans i j).toNat +
          ((span_width spans i j).toNat + 1 - 1 - k)) d := by
    intro k hk
    rw [Finset.mem_range] at hk
    have hmt : span_mask_val spans i j k = true := by
      unfold span_mask_val
      simp only [Bool.and_eq_true, decide_eq_true_eq]
      omega
    have hidx : (span_starts spans i j).toNat + ((span_width spans i j).toNat + 1 - 1 - k) =
        span_index spans i j k := by
      unfold span_width at hk
      unfold span_index span_width
      omega
    simp only [hmt, if_true, mul_one, hidx]
  rw [Finset.sum_congr rfl hstep2]
  exact Finset.sum_range_reflect
    (fun p => target.val i ((span_starts spans i j).toNat + p) d)
    ((span_width spans i j).toNat + 1)

/-- A span with `end < start` selects nothing: its divisor is zero. -/
theorem span_embeddings_len_eq_zero {spans : Tensor3 ℤ} {i j : ℕ}
    (hneg : span_ends spans i j < span_starts spans i j) :
    span_embeddings_len_val (span_mask_tensor spans) i j = 0 := by
  unfold span_embeddings_len_val span_mask_tensor
  simp only
  refine Finset.sum_eq_zero fun k _ => ?_
  have hmf : span_mask_val spans i j k = false := by
    unfold span_mask_val span_width
    simp only [Bool.and_eq_false_iff, decide_eq_false_iff_not, not_le]
    omega
  simp [hmf]

/-- A span with `end < start` contributes a zero masked sum. -/
theorem masked_span_sum_eq_zero {target : Tensor3 ℚ} {spans : Tensor3 ℤ} {i j d : ℕ}
    (hneg : span_ends spans i j < span_starts spans i j) :
    (∑ k ∈ Finset.range (span_axis_len spans),
        target.val i (span_index spans i j k) d * (if span_mask_val spans i j k then 1 else 0)) =
      0 := by
  refine Finset.sum_eq_zero fun k _ => ?_
  have hmf : span_mask_val spans i j k = false := by
    unfold span_mask_val span_width
    simp only [Bool.and_eq_false_iff, decide_eq_false_iff_not, not_le]
    omega
  simp [hmf]

/-- A span whose end lies below position 0 selects nothing either: every raw
index `end - k` is negative, so the relu clamp masks every position out. -/
theorem span_embeddings_len_eq_zero_neg {spans : Tensor3 ℤ} {i j : ℕ}
    (hneg : span_ends spans i j < 0) :
    span_embeddings_len_val (span_mask_tensor spans) i j = 0 := by
  unfold span_embeddings_len_val span_mask_tensor
  simp only
  refine Finset.sum_eq_zero fun k _ => ?_
  have hmf : span_mask_val spans i j k = false := by
    unfold span_mask_val
    simp only [Bool.and_eq_false_iff, decide_eq_false_iff_not, not_le]
    omega
  simp [hmf]

/-- A span whose end lies below position 0 contributes a zero masked sum. -/
theorem masked_span_sum_eq_zero_neg {target : Tensor3 ℚ} {spans : Tensor3 ℤ} {i j d : ℕ}
    (hneg : span_ends spans i j < 0) :
    (∑ k ∈ Finset.range (span_axis_len spans),
        target.val i (span_index spans i j k) d * (if span_mask_val spans i j k then 1 else 0)) =
      0 := by
  refine Finset.sum_eq_zero fun k _ => ?_
  have hmf : span_mask_val spans i j k = false := by
    unfold span_mask_val
    simp only [Bool.and_eq_false_iff, decide_eq_false_iff_not, not_le]
    omega
  simp [hmf]

/-! Master lemmas about `forward`. -/

/-- When the span selection succeeds, `forward` returns `forward_ok_output`. -/
theorem forward_eq_ok {m : PretrainedEmbeddingMismatchedEmbedder}
    {token_ids mask : Tensor2 ℤ} {offsets : Tensor3 ℤ} {wordpiece_mask : Tensor2 ℤ}
    {type_ids segment_concat_mask : Option (Tensor2 ℤ)}
    (hb : offsets.dim0 ≠ 0) (hs : offsets.dim1 ≠ 0) (hK : span_axis_len offsets ≠ 0)
    (hidx : nat_list_max (indices_list offsets) < token_ids.dim1) :
    forward m token_ids mask offsets wordpiece_mask type_ids segment_concat_mask =
      .ok (forward_ok_output m token_ids wordpiece_mask offsets type_ids segment_concat_mask) := by
  simp only [forward]
  rw [batched_span_select_eq_ok hb hs hK hidx]
  rfl

/-- Semantic sufficient conditions for `forward` to return: nonempty batch and
token dimensions, a positive wordpiece count, some span of nonnegative width,
and every span end below the wordpiece count. -/
theorem forward_eq_ok_of_bounds {m : PretrainedEmbeddingMismatchedEmbedder}
    {token_ids mask : Tensor2 ℤ} {offsets : Tensor3 ℤ} {wordpiece_mask : Tensor2 ℤ}
    {type_ids segment_concat_mask : Option (Tensor2 ℤ)}
    (hwp : 0 < token_ids.dim1)
    (hw : ∃ i < offsets.dim0, ∃ j < offsets.dim1, 0 ≤ span_width offsets i j)
    (hends : ∀ i < offsets.dim0, ∀ j < offsets.dim1,
      span_ends offsets i j < (token_ids.dim1 : ℤ)) :
    forward m token_ids mask offsets wordpiece_mask type_ids segment_concat_mask =
      .ok (forward_ok_output m token_ids wordpiece_mask offsets type_ids segment_concat_mask) := by
  obtain ⟨i, hi, j, hj, hwij⟩ := hw
  exact forward_eq_ok (by omega) (by omega) (span_axis_len_ne_zero hi hj hwij)
    (nat_list_max_indices_lt hwp hends)

/-- If a forward call completed, it returned `forward_ok_output`. -/
theorem forward_eq_ok_of_call_ok {m : PretrainedEmbeddingMismatchedEmbedder}
    {token_ids mask : Tensor2 ℤ} {offsets : Tensor3 ℤ} {wordpiece_mask : Tensor2 ℤ}
    {type_ids segment_concat_mask : Option (Tensor2 ℤ)}
    (h : call_ok (forward m token_ids mask offsets wordpiece_mask type_ids
      segment_concat_mask) = true) :
    forward m token_ids mask offsets wordpiece_mask type_ids segment_concat_mask =
      .ok (forward_ok_output m token_ids wordpiece_mask offsets type_ids segment_concat_mask) := by
  simp only [forward] at h ⊢
  cases hbss : batched_span_select
      (inner_embeddings m token_ids wordpiece_mask type_ids segment_concat_mask) offsets with
  | error e =>
    rw [hbss] at h
    exact absurd h (by simp [call_ok])
  | ok p =>
    have hp := batched_span_select_ok_elim hbss
    subst hp
    rfl

/-- Unfolding of the entries of `forward_ok_output`. -/
theorem forward_ok_output_val_def {m : PretrainedEmbeddingMismatchedEmbedder}
    {token_ids wordpiece_mask : Tensor2 ℤ} {offsets : Tensor3 ℤ}
    {type_ids segment_concat_mask : Option (Tensor2 ℤ)} (i j d : ℕ) :
    (forward_ok_output m token_ids wordpiece_mask offsets type_ids
        segment_concat_mask).val i j d =
      fl_div_count
        (∑ k ∈ Finset.range (span_axis_len offsets),
          (inner_embeddings m token_ids wordpiece_mask type_ids segment_concat_mask).val i
              (span_index offsets i j k) d *
            (if span_mask_val offsets i j k then 1 else 0))
        (span_embeddings_len_val (span_mask_tensor offsets) i j) := rfl

/-- Value of the success output at a nonempty in-bounds span: the arithmetic
mean over all wordpiece positions `start .. end`, divided by the span size. -/
theorem forward_ok_output_val {m : PretrainedEmbeddingMismatchedEmbedder}
    {token_ids wordpiece_mask : Tensor2 ℤ} {offsets : Tensor3 ℤ}
    {type_ids segment_concat_mask : Option (Tensor2 ℤ)} {i j : ℕ} (d : ℕ)
    (hi : i < offsets.dim0) (hj : j < offsets.dim1)
    (h0 : 0 ≤ span_starts offsets i j)
    (hse : span_starts offsets i j ≤ span_ends offsets i j) :
    (forward_ok_output m token_ids wordpiece_mask offsets type_ids
        segment_concat_mask).val i j d =
      .fin ((∑ p ∈ Finset.range ((span_width offsets i j).toNat + 1),
          (inner_embeddings m token_ids wordpiece_mask type_ids segment_concat_mask).val i
            ((span_starts offsets i j).toNat + p) d) /
        ((span_width offsets i j).toNat + 1 : ℕ)) := by
  rw [forward_ok_output_val_def, masked_span_sum_eq hi hj h0 hse,
    span_embeddings_len_eq hi hj h0 hse]
  unfold fl_div_count
  rw [if_pos (by omega)]

/-- Value of the success output at a span with `end < start`: `0 / 0 = NaN`. -/
theorem forward_ok_output_val_nan {m : PretrainedEmbeddingMismatchedEmbedder}
    {token_ids wordpiece_mask : Tensor2 ℤ} {offsets : Tensor3 ℤ}
    {type_ids segment_concat_mask : Option (Tensor2 ℤ)} {i j : ℕ} (d : ℕ)
    (hneg : span_ends offsets i j < span_starts offsets i j) :
    (forward_ok_output m token_ids wordpiece_mask offsets type_ids
        segment_concat_mask).val i j d = .nan := by
  rw [forward_ok_output_val_def, masked_span_sum_eq_zero hneg,
    span_embeddings_len_eq_zero hneg]
  rfl

/-- Value of the success output at a span lying entirely below position 0:
again `0 / 0 = NaN`, with no error raised. -/
theorem forward_ok_output_val_nan_neg {m : PretrainedEmbeddingMismatchedEmbedder}
    {token_ids wordpiece_mask : Tensor2 ℤ} {offsets : Tensor3 ℤ}
    {type_ids segment_concat_mask : Option (Tensor2 ℤ)} {i j : ℕ} (d : ℕ)
    (hneg : span_ends offsets i j < 0) :
    (forward_ok_output m token_ids wordpiece_mask offsets type_ids
        segment_concat_mask).val i j d = .nan := by
  rw [forward_ok_output_val_def, masked_span_sum_eq_zero_neg hneg,
    span_embeddings_len_eq_zero_neg hneg]
  rfl

/-- When some nonempty span references an end index at or beyond the sequence
length, the index check raises a `ConfigurationError`. -/
theorem batched_span_select_eq_error {target : Tensor3 ℚ} {spans : Tensor3 ℤ} {i j : ℕ}
    (hi : i < spans.dim0) (hj : j < spans.dim1) (hw : 0 ≤ span_width spans i j)
    (hhigh : (target.dim1 : ℤ) ≤ span_ends spans i j) :
    batched_span_select target spans = .error configuration_error_msg := by
  have hK := span_axis_len_ne_zero hi hj hw
  have hk0 : 0 < span_axis_len spans := by omega
  have h1 := mem_le_nat_list_max (span_index_mem_indices_list hi hj hk0)
  have h2 : target.dim1 ≤ span_index spans i j 0 := by
    unfold span_index
    omega
  unfold batched_span_select
  rw [if_neg (by omega), if_neg hK, if_pos (by omega)]

/-- `forward` propagates the `ConfigurationError` of the index check. -/
theorem forward_eq_error {m : PretrainedEmbeddingMismatchedEmbedder}
    {token_ids mask : Tensor2 ℤ} {offsets : Tensor3 ℤ} {wordpiece_mask : Tensor2 ℤ}
    {type_ids segment_concat_mask : Option (Tensor2 ℤ)} {i j : ℕ}
    (hi : i < offsets.dim0) (hj : j < offsets.dim1) (hw : 0 ≤ span_width offsets i j)
    (hhigh : (token_ids.dim1 : ℤ) ≤ span_ends offsets i j) :
    forward m token_ids mask offsets wordpiece_mask type_ids segment_concat_mask =
      .error configuration_error_msg := by
  simp only [forward]
  rw [batched_span_select_eq_error hi hj hw hhigh]

/-- `out_val` on a completed call projects the returned tensor. -/
theorem out_val_ok (t : Tensor3 Fl) (i j d : ℕ) :
    out_val (.ok t) i j d = t.val i j d := rfl

/-- Mean form of a completed forward call at a nonempty in-bounds span. -/
theorem out_val_forward_mean {m : PretrainedEmbeddingMismatchedEmbedder}
    {token_ids mask : Tensor2 ℤ} {offsets : Tensor3 ℤ} {wordpiece_mask : Tensor2 ℤ}
    {type_ids segment_concat_mask : Option (Tensor2 ℤ)} {i j : ℕ} (d : ℕ)
    (hwp : 0 < token_ids.dim1)
    (hw : ∃ i0, i0 < offsets.dim0 ∧ ∃ j0, j0 < offsets.dim1 ∧ 0 ≤ span_width offsets i0 j0)
    (hends : ∀ i0 < offsets.dim0, ∀ j0 < offsets.dim1,
      span_ends offsets i0 j0 < (token_ids.dim1 : ℤ))
    (hi : i < offsets.dim0) (hj : j < offsets.dim1)
    (h0 : 0 ≤ span_starts offsets i j)
    (hse : span_starts offsets i j ≤ span_ends offsets i j) :
    out_val (forward m token_ids mask offsets wordpiece_mask type_ids
        segment_concat_mask) i j d =
      .fin ((∑ p ∈ Finset.range ((span_width offsets i j).toNat + 1),
          (inner_embeddings m token_ids wordpiece_mask type_ids segment_concat_mask).val i
            ((span_starts offsets i j).toNat + p) d) /
        ((span_width offsets i j).toNat + 1 : ℕ)) := by
  obtain ⟨i0, hi0, j0, hj0, hw0⟩ := hw
  rw [forward_eq_ok_of_bounds hwp ⟨i0, hi0, j0, hj0, hw0⟩ hends, out_val_ok]
  exact forward_ok_output_val d hi hj h0 hse

/-! Claim theorems. -/

/-- C5: two forward calls on the same module whose inputs are identical except
for the `mask` argument return identical outputs — the body of `forward` never
consumes `mask`, so the output cannot depend on it. -/
theorem C5_mask_not_consumed (m : PretrainedEmbeddingMismatchedEmbedder)
    (token_ids mask1 mask2 : Tensor2 ℤ) (offsets : Tensor3 ℤ) (wordpiece_mask : Tensor2 ℤ)
    (type_ids segment_concat_mask : Option (Tensor2 ℤ)) :
    forward m token_ids mask1 offsets wordpiece_mask type_ids segment_concat_mask =
      forward m token_ids mask2 offsets wordpiece_mask type_ids segment_concat_mask := rfl

/-- C6: `get_output_dim` returns exactly the inner embedder's output-dimension
query, a fixed positive integer; the module value is immutable in this model
(`forward` is a pure function of it), so the result is independent of any
forward call. -/
theorem C6_get_output_dim (m : PretrainedEmbeddingMismatchedEmbedder) :
    get_output_dim m = m.matched_embedder.get_output_dim ∧ 0 < get_output_dim m :=
  ⟨rfl, m.matched_embedder.output_dim_pos⟩

/-- C9: for an original token with `0 ≤ start ≤ end < num_wordpieces`, the
divisor `span_embeddings_len` equals the span width `end - start + 1`, for
every value of `wordpiece_mask`: the span mask summed into the divisor is
`span_mask_val offsets`, a function of the offsets alone — `wordpiece_mask`
is not an argument of the span-selection step. -/
theorem C9_divisor_is_span_size (offsets : Tensor3 ℤ) (wordpiece_mask : Tensor2 ℤ)
    (num_wordpieces i j : ℕ) (hi : i < offsets.dim0) (hj : j < offsets.dim1)
    (h0 : 0 ≤ span_starts offsets i j)
    (hse : span_starts offsets i j ≤ span_ends offsets i j)
    (hlt : span_ends offsets i j < (num_wordpieces : ℤ)) :
    (span_embeddings_len_val (span_mask_tensor offsets) i j : ℤ) =
      span_ends offsets i j - span_starts offsets i j + 1 := by
  have h := span_embeddings_len_eq hi hj h0 hse
  unfold span_width at h
  omega

/-- Witness for C9: offsets `[[1, 3]]` over four wordpieces give divisor
`3 - 1 + 1 = 3`. -/
theorem C9_divisor_is_span_size_witness :
    (0 : ℤ) ≤ span_starts (ex_offsets 1 fun _ => (1, 3)) 0 0 ∧
    span_ends (ex_offsets 1 fun _ => (1, 3)) 0 0 < ((4 : ℕ) : ℤ) ∧
    (span_embeddings_len_val (span_mask_tensor (ex_offsets 1 fun _ => (1, 3))) 0 0 : ℤ) =
      span_ends (ex_offsets 1 fun _ => (1, 3)) 0 0 -
        span_starts (ex_offsets 1 fun _ => (1, 3)) 0 0 + 1 :=
  ⟨by decide, by decide,
    C9_divisor_is_span_size (ex_offsets 1 fun _ => (1, 3)) (ex_row 4 fun _ => 1) 4 0 0
      (by decide) (by decide) (by decide) (by decide) (by decide)⟩

/-- C3: under the documented shape contract, a completed forward call returns a
tensor of shape `(batch_size, num_original_tokens, embedding_size)` where the
batch size comes from the inputs, the token count from `offsets`, and the
embedding size equals the module's output-dimension query. -/
theorem C3_output_shape (m : PretrainedEmbeddingMismatchedEmbedder)
    (token_ids mask : Tensor2 ℤ) (offsets : Tensor3 ℤ) (wordpiece_mask : Tensor2 ℤ)
    (type_ids segment_concat_mask : Option (Tensor2 ℤ))
    (hshape : offsets.dim0 = token_ids.dim0)
    (hok : call_ok (forward m token_ids mask offsets wordpiece_mask type_ids
      segment_concat_mask) = true) :
    out_dims (forward m token_ids mask offsets wordpiece_mask type_ids segment_concat_mask) =
      some (token_ids.dim0, offsets.dim1, get_output_dim m) := by
  rw [forward_eq_ok_of_call_ok hok, ← hshape]
  rfl

/-- Witness for C3 at a one-token, one-wordpiece input. -/
theorem C3_output_shape_witness :
    call_ok (forward (ex_module fun _ => 1) (ex_row 1 fun _ => 0) (ex_row 1 fun _ => 1)
        (ex_offsets 1 fun _ => (0, 0)) (ex_row 1 fun _ => 1) none none) = true ∧
    out_dims (forward (ex_module fun _ => 1) (ex_row 1 fun _ => 0) (ex_row 1 fun _ => 1)
        (ex_offsets 1 fun _ => (0, 0)) (ex_row 1 fun _ => 1) none none) =
      some ((ex_row 1 fun _ => 0).dim0, (ex_offsets 1 fun _ => (0, 0)).dim1,
        get_output_dim (ex_module fun _ => 1)) :=
  ⟨by decide, C3_output_shape _ _ _ _ _ _ _ rfl (by decide)⟩

/-- C7: an original token whose offset span covers exactly one wordpiece
(`start = end`, real and in bounds) receives that wordpiece's inner-embedder
vector unchanged: the mean over a singleton is the identity. -/
theorem C7_singleton_span (m : PretrainedEmbeddingMismatchedEmbedder)
    (token_ids mask : Tensor2 ℤ) (offsets : Tensor3 ℤ) (wordpiece_mask : Tensor2 ℤ)
    (type_ids segment_concat_mask : Option (Tensor2 ℤ)) (i j : ℕ)
    (hi : i < offsets.dim0) (hj : j < offsets.dim1)
    (h0 : 0 ≤ span_starts offsets i j)
    (heq : span_ends offsets i j = span_starts offsets i j)
    (hlt : span_ends offsets i j < (token_ids.dim1 : ℤ))
    (hreal : wordpiece_mask.val i (span_starts offsets i j).toNat = 1)
    (hok : call_ok (forward m token_ids mask offsets wordpiece_mask type_ids
      segment_concat_mask) = true) (d : ℕ) :
    out_val (forward m token_ids mask offsets wordpiece_mask type_ids segment_concat_mask)
        i j d =
      .fin ((inner_embeddings m token_ids wordpiece_mask type_ids segment_concat_mask).val i
        (span_starts offsets i j).toNat d) := by
  rw [forward_eq_ok_of_call_ok hok, out_val_ok,
    forward_ok_output_val d hi hj h0 (by omega)]
  have hw0 : (span_width offsets i j).toNat = 0 := by
    unfold span_width
    omega
  rw [hw0]
  simp

/-- Witness for C7: the singleton span `[1, 1]` over two wordpieces returns
wordpiece 1's vector. -/
theorem C7_singleton_span_witness :
    span_ends (ex_offsets 1 fun _ => (1, 1)) 0 0 =
      span_starts (ex_offsets 1 fun _ => (1, 1)) 0 0 ∧
    (ex_row 2 fun _ => 1).val 0 (span_starts (ex_offsets 1 fun _ => (1, 1)) 0 0).toNat = 1 ∧
    out_val (forward (ex_module fun p => (p : ℚ) + 10) (ex_row 2 fun _ => 0)
        (ex_row 1 fun _ => 1) (ex_offsets 1 fun _ => (1, 1)) (ex_row 2 fun _ => 1)
        none none) 0 0 0 =
      .fin ((inner_embeddings (ex_module fun p => (p : ℚ) + 10) (ex_row 2 fun _ => 0)
        (ex_row 2 fun _ => 1) none none).val 0
          (span_starts (ex_offsets 1 fun _ => (1, 1)) 0 0).toNat 0) :=
  ⟨by decide, by decide,
    C7_singleton_span _ _ _ _ _ _ _ 0 0 (by decide) (by decide) (by decide) (by decide)
      (by decide) (by decide) (by decide) 0⟩

/-- C1 is false as stated: with offsets `[[0, 1]]`, wordpiece_mask `[1, 0]` and
inner-embedder outputs `e0 = 1`, `e1 = 3`, the only token's span contains the
real wordpiece 0, yet the output is `(1 + 3) / 2 = 2` — the span sum divided by
the number of span positions — and not `(1 + 3) / 1 = 4`, the span sum divided
by the count of real wordpieces in the span claimed by the parenthetical. -/
theorem C1_counterexample :
    ((ex_row 2 fun p => if p = 0 then 1 else 0).val 0 0 = 1 ∧
      (ex_row 2 fun p => if p = 0 then 1 else 0).val 0 1 = 0) ∧
    out_val (forward (ex_module fun p => if p = 0 then 1 else 3) (ex_row 2 fun _ => 0)
        (ex_row 1 fun _ => 1) (ex_offsets 1 fun _ => (0, 1))
        (ex_row 2 fun p => if p = 0 then 1 else 0) none none) 0 0 0 = .fin 2 ∧
    Fl.fin 2 ≠ Fl.fin ((1 + 3) / 1 : ℚ) := by
  refine ⟨⟨rfl, rfl⟩, ?_, ?_⟩
  · rw [out_val_forward_mean 0 (by decide) ⟨0, by decide, 0, by decide, by decide⟩
      (by decide) (by decide) (by decide) (by decide) (by decide)]
    rw [show (span_width (ex_offsets 1 fun _ => (0, 1)) 0 0).toNat = 1 from by decide]
    rw [show (span_starts (ex_offsets 1 fun _ => (0, 1)) 0 0).toNat = 0 from by decide]
    rw [Fl.fin.injEq]
    simp only [inner_embeddings, ex_module, ex_embedder, ex_row, Finset.sum_range_succ,
      Finset.sum_range_zero]
    norm_num
  · intro hcontra
    rw [Fl.fin.injEq] at hcontra
    norm_num at hcontra

/-- C1 (amended): for every batch whose spans are in bounds
(`0 ≤ start ≤ end < num_wordpieces`) and each contain at least one real
wordpiece, the call completes and the output at token `j` is the elementwise
arithmetic mean of the inner-embedder outputs at wordpiece positions
`start .. end` inclusive — the span sum divided by the number of span
positions `end - start + 1`, not by the count of real wordpieces. -/
theorem C1_amended (m : PretrainedEmbeddingMismatchedEmbedder)
    (token_ids mask : Tensor2 ℤ) (offsets : Tensor3 ℤ) (wordpiece_mask : Tensor2 ℤ)
    (type_ids segment_concat_mask : Option (Tensor2 ℤ))
    (hb : 0 < offsets.dim0) (hs : 0 < offsets.dim1) (hwp : 0 < token_ids.dim1)
    (hbounds : ∀ i < offsets.dim0, ∀ j < offsets.dim1,
      0 ≤ span_starts offsets i j ∧ span_starts offsets i j ≤ span_ends offsets i j ∧
        span_ends offsets i j < (token_ids.dim1 : ℤ))
    (hreal : ∀ i < offsets.dim0, ∀ j < offsets.dim1, ∃ p < token_ids.dim1,
      span_starts offsets i j ≤ (p : ℤ) ∧ (p : ℤ) ≤ span_ends offsets i j ∧
        wordpiece_mask.val i p = 1) :
    call_ok (forward m token_ids mask offsets wordpiece_mask type_ids
      segment_concat_mask) = true ∧
    ∀ i < offsets.dim0, ∀ j < offsets.dim1, ∀ d,
      out_val (forward m token_ids mask offsets wordpiece_mask type_ids
          segment_concat_mask) i j d =
        .fin ((∑ p ∈ Finset.range ((span_width offsets i j).toNat + 1),
            (inner_embeddings m token_ids wordpiece_mask type_ids segment_concat_mask).val i
              ((span_starts offsets i j).toNat + p) d) /
          ((span_width offsets i j).toNat + 1 : ℕ)) := by
  have hw : ∃ i0, i0 < offsets.dim0 ∧ ∃ j0, j0 < offsets.dim1 ∧
      0 ≤ span_width offsets i0 j0 := by
    obtain ⟨h1, h2, _⟩ := hbounds 0 hb 0 hs
    refine ⟨0, hb, 0, hs, ?_⟩
    unfold span_width
    omega
  have hends : ∀ i0 < offsets.dim0, ∀ j0 < offsets.dim1,
      span_ends offsets i0 j0 < (token_ids.dim1 : ℤ) :=
    fun i0 hi0 j0 hj0 => (hbounds i0 hi0 j0 hj0).2.2
  constructor
  · rw [forward_eq_ok_of_bounds hwp hw hends]
    rfl
  · intro i hi j hj d
    exact out_val_forward_mean d hwp hw hends hi hj (hbounds i hi j hj).1
      (hbounds i hi j hj).2.1

/-- Witness for C1 (amended): the spec scenario — three wordpieces with
embeddings `0, 1, 2`, spans `[0, 1]` and `[2, 2]`, all wordpieces real. -/
theorem C1_amended_witness :
    call_ok (forward (ex_module fun p => (p : ℚ)) (ex_row 3 fun _ => 0)
      (ex_row 2 fun _ => 1) (ex_offsets 2 fun j => if j = 0 then (0, 1) else (2, 2))
      (ex_row 3 fun _ => 1) none none) = true ∧
    ∀ i < (ex_offsets 2 fun j => if j = 0 then (0, 1) else (2, 2)).dim0,
      ∀ j < (ex_offsets 2 fun j => if j = 0 then (0, 1) else (2, 2)).dim1, ∀ d,
      out_val (forward (ex_module fun p => (p : ℚ)) (ex_row 3 fun _ => 0)
          (ex_row 2 fun _ => 1) (ex_offsets 2 fun j => if j = 0 then (0, 1) else (2, 2))
          (ex_row 3 fun _ => 1) none none) i j d =
        .fin ((∑ p ∈ Finset.range
            ((span_width (ex_offsets 2 fun j => if j = 0 then (0, 1) else (2, 2)) i j).toNat + 1),
            (inner_embeddings (ex_module fun p => (p : ℚ)) (ex_row 3 fun _ => 0)
              (ex_row 3 fun _ => 1) none none).val i
              ((span_starts (ex_offsets 2 fun j => if j = 0 then (0, 1) else (2, 2)) i j).toNat
                + p) d) /
          ((span_width (ex_offsets 2 fun j => if j = 0 then (0, 1) else (2, 2)) i j).toNat + 1
            : ℕ)) :=
  C1_amended _ _ _ _ _ _ _ (by decide) (by decide) (by decide) (by decide) (by decide)

/-- C2 is false as stated: wordpiece 1 has `wordpiece_mask = 0` and lies inside
the token's offset range `[0, 1]`, yet it contributes both to the span sum and
to the divisor: with inner-embedder outputs `e0 = 5`, `e1 = 7` the output is
`(5 + 7) / 2 = 6`, not the `5 / 1 = 5` that excluding it would give. -/
theorem C2_counterexample :
    (ex_row 2 fun p => if p = 0 then 1 else 0).val 0 1 = 0 ∧
    span_starts (ex_offsets 1 fun _ => (0, 1)) 0 0 ≤ 1 ∧
    (1 : ℤ) ≤ span_ends (ex_offsets 1 fun _ => (0, 1)) 0 0 ∧
    out_val (forward (ex_module fun p => if p = 0 then 5 else 7) (ex_row 2 fun _ => 0)
        (ex_row 1 fun _ => 1) (ex_offsets 1 fun _ => (0, 1))
        (ex_row 2 fun p => if p = 0 then 1 else 0) none none) 0 0 0 = .fin 6 ∧
    Fl.fin 6 ≠ Fl.fin 5 := by
  refine ⟨rfl, by decide, by decide, ?_, ?_⟩
  · rw [out_val_forward_mean 0 (by decide) ⟨0, by decide, 0, by decide, by decide⟩
      (by decide) (by decide) (by decide) (by decide) (by decide)]
    rw [show (span_width (ex_offsets 1 fun _ => (0, 1)) 0 0).toNat = 1 from by decide]
    rw [show (span_starts (ex_offsets 1 fun _ => (0, 1)) 0 0).toNat = 0 from by decide]
    rw [Fl.fin.injEq]
    simp only [inner_embeddings, ex_module, ex_embedder, ex_row, Finset.sum_range_succ,
      Finset.sum_range_zero]
    norm_num
  · intro hcontra
    rw [Fl.fin.injEq] at hcontra
    norm_num at hcontra

/-- C2 (amended): a wordpiece position with `wordpiece_mask = 0` lying inside a
token's in-bounds offset range contributes to BOTH the span sum and the divisor
count: the divisor is the full span size `end - start + 1` and the output is
the mean over all span positions including the masked one.  The span mask that
zeroes contributions is derived from the span bounds alone, not from
`wordpiece_mask`. -/
theorem C2_amended (m : PretrainedEmbeddingMismatchedEmbedder)
    (token_ids mask : Tensor2 ℤ) (offsets : Tensor3 ℤ) (wordpiece_mask : Tensor2 ℤ)
    (type_ids segment_concat_mask : Option (Tensor2 ℤ)) (i j p : ℕ)
    (hi : i < offsets.dim0) (hj : j < offsets.dim1)
    (h0 : 0 ≤ span_starts offsets i j)
    (hse : span_starts offsets i j ≤ span_ends offsets i j)
    (hp1 : span_starts offsets i j ≤ (p : ℤ)) (hp2 : (p : ℤ) ≤ span_ends offsets i j)
    (hmask0 : wordpiece_mask.val i p = 0)
    (hok : call_ok (forward m token_ids mask offsets wordpiece_mask type_ids
      segment_concat_mask) = true) (d : ℕ) :
    span_embeddings_len_val (span_mask_tensor offsets) i j =
      (span_width offsets i j).toNat + 1 ∧
    out_val (forward m token_ids mask offsets wordpiece_mask type_ids segment_concat_mask)
        i j d =
      .fin ((∑ q ∈ Finset.range ((span_width offsets i j).toNat + 1),
          (inner_embeddings m token_ids wordpiece_mask type_ids segment_concat_mask).val i
            ((span_starts offsets i j).toNat + q) d) /
        ((span_width offsets i j).toNat + 1 : ℕ)) := by
  refine ⟨span_embeddings_len_eq hi hj h0 hse, ?_⟩
  rw [forward_eq_ok_of_call_ok hok, out_val_ok]
  exact forward_ok_output_val d hi hj h0 hse

/-- Witness for C2 (amended): span `[0, 1]`, wordpiece 1 masked out, inner
outputs `5, 9`. -/
theorem C2_amended_witness :
    (ex_row 2 fun p => if p = 0 then 1 else 0).val 0 1 = 0 ∧
    span_embeddings_len_val (span_mask_tensor (ex_offsets 1 fun _ => (0, 1))) 0 0 =
      (span_width (ex_offsets 1 fun _ => (0, 1)) 0 0).toNat + 1 ∧
    out_val (forward (ex_module fun p => if p = 0 then 5 else 9) (ex_row 2 fun _ => 0)
        (ex_row 1 fun _ => 1) (ex_offsets 1 fun _ => (0, 1))
        (ex_row 2 fun p => if p = 0 then 1 else 0) none none) 0 0 0 =
      .fin ((∑ q ∈ Finset.range ((span_width (ex_offsets 1 fun _ => (0, 1)) 0 0).toNat + 1),
          (inner_embeddings (ex_module fun p => if p = 0 then 5 else 9) (ex_row 2 fun _ => 0)
            (ex_row 2 fun p => if p = 0 then 1 else 0) none none).val 0
            ((span_starts (ex_offsets 1 fun _ => (0, 1)) 0 0).toNat + q) 0) /
        ((span_width (ex_offsets 1 fun _ => (0, 1)) 0 0).toNat + 1 : ℕ)) := by
  have h := C2_amended (ex_module fun p => if p = 0 then 5 else 9) (ex_row 2 fun _ => 0)
    (ex_row 1 fun _ => 1) (ex_offsets 1 fun _ => (0, 1))
    (ex_row 2 fun p => if p = 0 then 1 else 0) none none 0 0 1
    (by decide) (by decide) (by decide) (by decide) (by decide) (by decide) (by decide)
    (by decide) 0
  exact ⟨by decide, h.1, h.2⟩

/-- C4 is false as stated: with offsets `[[0, 1]]` and `wordpiece_mask = [0, 0]`
(every wordpiece of the token's range masked out) the divisor is the span size
2, not zero; with inner outputs `e0 = 2`, `e1 = 4` the call completes and the
output slot is the finite value `(2 + 4) / 2 = 3`, not a NaN/Inf. -/
theorem C4_counterexample :
    (∀ q < 2, (ex_row 2 fun _ => 0).val 0 q = 0) ∧
    call_ok (forward (ex_module fun p => if p = 0 then 2 else 4) (ex_row 2 fun _ => 5)
      (ex_row 1 fun _ => 1) (ex_offsets 1 fun _ => (0, 1)) (ex_row 2 fun _ => 0)
      none none) = true ∧
    out_val (forward (ex_module fun p => if p = 0 then 2 else 4) (ex_row 2 fun _ => 5)
        (ex_row 1 fun _ => 1) (ex_offsets 1 fun _ => (0, 1)) (ex_row 2 fun _ => 0)
        none none) 0 0 0 = .fin 3 ∧
    (Fl.fin 3).isFinite = true := by
  refine ⟨by decide, by decide, ?_, rfl⟩
  rw [out_val_forward_mean 0 (by decide) ⟨0, by decide, 0, by decide, by decide⟩
    (by decide) (by decide) (by decide) (by decide) (by decide)]
  rw [show (span_width (ex_offsets 1 fun _ => (0, 1)) 0 0).toNat = 1 from by decide]
  rw [show (span_starts (ex_offsets 1 fun _ => (0, 1)) 0 0).toNat = 0 from by decide]
  rw [Fl.fin.injEq]
  simp only [inner_embeddings, ex_module, ex_embedder, ex_row, Finset.sum_range_succ,
    Finset.sum_range_zero]
  norm_num

/-- C4 (amended): the final division divides by zero for a token exactly when
its span selects no position — for example when `offsets[j][1] < offsets[j][0]`
(while some other span keeps the batch nonempty along the span axis and all
span ends stay in bounds).  No error is raised: the call completes and the
token's output slot is the non-finite value NaN (`0 / 0`).  A span whose
wordpieces are all masked out does not trigger this, since the divisor counts
span positions regardless of `wordpiece_mask`. -/
theorem C4_amended (m : PretrainedEmbeddingMismatchedEmbedder)
    (token_ids mask : Tensor2 ℤ) (offsets : Tensor3 ℤ) (wordpiece_mask : Tensor2 ℤ)
    (type_ids segment_concat_mask : Option (Tensor2 ℤ)) (i j : ℕ)
    (hwp : 0 < token_ids.dim1)
    (hw : ∃ i0, i0 < offsets.dim0 ∧ ∃ j0, j0 < offsets.dim1 ∧
      0 ≤ span_width offsets i0 j0)
    (hends : ∀ i0 < offsets.dim0, ∀ j0 < offsets.dim1,
      span_ends offsets i0 j0 < (token_ids.dim1 : ℤ))
    (hneg : span_ends offsets i j < span_starts offsets i j) :
    span_embeddings_len_val (span_mask_tensor offsets) i j = 0 ∧
    call_ok (forward m token_ids mask offsets wordpiece_mask type_ids
      segment_concat_mask) = true ∧
    ∀ d, out_val (forward m token_ids mask offsets wordpiece_mask type_ids
        segment_concat_mask) i j d = .nan := by
  refine ⟨span_embeddings_len_eq_zero hneg, ?_, ?_⟩
  · rw [forward_eq_ok_of_bounds hwp hw hends]
    rfl
  · intro d
    rw [forward_eq_ok_of_bounds hwp hw hends, out_val_ok]
    exact forward_ok_output_val_nan d hneg

/-- Witness for C4 (amended): spans `[0, 0]` and `[1, 0]` over two wordpieces;
token 1's empty span gets divisor zero and a NaN slot while the call
completes. -/
theorem C4_amended_witness :
    span_ends (ex_offsets 2 fun j => if j = 0 then (0, 0) else (1, 0)) 0 1 <
      span_starts (ex_offsets 2 fun j => if j = 0 then (0, 0) else (1, 0)) 0 1 ∧
    span_embeddings_len_val
      (span_mask_tensor (ex_offsets 2 fun j => if j = 0 then (0, 0) else (1, 0))) 0 1 = 0 ∧
    call_ok (forward (ex_module fun p => (p : ℚ)) (ex_row 2 fun _ => 0)
      (ex_row 2 fun _ => 1) (ex_offsets 2 fun j => if j = 0 then (0, 0) else (1, 0))
      (ex_row 2 fun _ => 1) none none) = true ∧
    ∀ d, out_val (forward (ex_module fun p => (p : ℚ)) (ex_row 2 fun _ => 0)
        (ex_row 2 fun _ => 1) (ex_offsets 2 fun j => if j = 0 then (0, 0) else (1, 0))
        (ex_row 2 fun _ => 1) none none) 0 1 d = .nan := by
  have h := C4_amended (ex_module fun p => (p : ℚ)) (ex_row 2 fun _ => 0)
    (ex_row 2 fun _ => 1) (ex_offsets 2 fun j => if j = 0 then (0, 0) else (1, 0))
    (ex_row 2 fun _ => 1) none none 0 1 (by decide)
    ⟨0, by decide, 0, by decide, by decide⟩ (by decide) (by decide)
  exact ⟨by decide, h.1, h.2.1, h.2.2⟩

/-- C8 is false as stated: offsets `[[-2, -1]]` reference the wordpiece indices
`-2` and `-1`, both outside `[0, num_wordpieces)`, yet the call does not fail —
the relu clamp and the span mask silently absorb negative indices, the call
completes, and the token's slot is NaN. -/
theorem C8_counterexample :
    span_starts (ex_offsets 1 fun _ => (-2, -1)) 0 0 = -2 ∧
    span_ends (ex_offsets 1 fun _ => (-2, -1)) 0 0 = -1 ∧
    ¬(0 ≤ span_ends (ex_offsets 1 fun _ => (-2, -1)) 0 0) ∧
    call_ok (forward (ex_module fun p => (p : ℚ)) (ex_row 2 fun _ => 0)
      (ex_row 1 fun _ => 1) (ex_offsets 1 fun _ => (-2, -1)) (ex_row 2 fun _ => 1)
      none none) = true ∧
    out_val (forward (ex_module fun p => (p : ℚ)) (ex_row 2 fun _ => 0)
        (ex_row 1 fun _ => 1) (ex_offsets 1 fun _ => (-2, -1)) (ex_row 2 fun _ => 1)
        none none) 0 0 0 = .nan := by
  refine ⟨rfl, rfl, by decide, by decide, ?_⟩
  rw [forward_eq_ok_of_bounds (by decide) ⟨0, by decide, 0, by decide, by decide⟩
    (by decide), out_val_ok]
  exact forward_ok_output_val_nan_neg 0 (by decide)

/-- C8 (amended): a forward call fails — with the `ConfigurationError`
propagated from the index-checking layer, and no local recovery — whenever some
nonempty span (`start ≤ end`) references an end index at or beyond
`num_wordpieces`.  Offsets referencing only negative indices do not fail: they
are relu-clamped and masked out silently (see the counterexample). -/
theorem C8_amended (m : PretrainedEmbeddingMismatchedEmbedder)
    (token_ids mask : Tensor2 ℤ) (offsets : Tensor3 ℤ) (wordpiece_mask : Tensor2 ℤ)
    (type_ids segment_concat_mask : Option (Tensor2 ℤ)) (i j : ℕ)
    (hi : i < offsets.dim0) (hj : j < offsets.dim1)
    (hw : 0 ≤ span_width offsets i j)
    (hhigh : (token_ids.dim1 : ℤ) ≤ span_ends offsets i j) :
    forward m token_ids mask offsets wordpiece_mask type_ids segment_concat_mask =
      .error configuration_error_msg :=
  forward_eq_error hi hj hw hhigh

/-- Witness for C8 (amended): the span `[0, 5]` over two wordpieces raises. -/
theorem C8_amended_witness :
    ((ex_row 2 fun _ => 0).dim1 : ℤ) ≤ span_ends (ex_offsets 1 fun _ => (0, 5)) 0 0 ∧
    forward (ex_module fun p => (p : ℚ)) (ex_row 2 fun _ => 0) (ex_row 1 fun _ => 1)
        (ex_offsets 1 fun _ => (0, 5)) (ex_row 2 fun _ => 1) none none =
      .error configuration_error_msg :=
  ⟨by decide,
    C8_amended _ _ _ _ _ _ _ 0 0 (by decide) (by decide) (by decide) (by decide)⟩

/-- C10: a forward call leaves every pre-existing heap cell — in particular all
of its input tensors — unchanged, on the success and error paths alike: the
only in-place update of the computation writes through the address of the fresh
span-selection output, which is allocated by the call itself. -/
theorem C10_inputs_unchanged (m : PretrainedEmbeddingMismatchedEmbedder)
    (h : List Val) (token_ids_ref mask_ref offsets_ref wordpiece_mask_ref : ℕ)
    (type_ids_ref segment_concat_mask_ref : Option ℕ) (k : ℕ) (hk : k < h.length) :
    ((forward_heap m h token_ids_ref mask_ref offsets_ref wordpiece_mask_ref
        type_ids_ref segment_concat_mask_ref).1)[k]? = h[k]? := by
  simp only [forward_heap]
  cases hbss : batched_span_select
      (inner_embeddings m (heap_read h token_ids_ref).asI2
        (heap_read h wordpiece_mask_ref).asI2
        (type_ids_ref.map fun r => (heap_read h r).asI2)
        (segment_concat_mask_ref.map fun r => (heap_read h r).asI2))
      (heap_read h offsets_ref).asI3 with
  | error e =>
    rw [List.getElem?_append_left (by simp; omega), List.getElem?_append_left hk]
  | ok p =>
    obtain ⟨se, sm⟩ := p
    rw [List.getElem?_append_left (by simp [List.length_set]; omega),
      List.getElem?_append_left (by simp [List.length_set]; omega),
      List.getElem?_append_left (by simp [List.length_set]; omega),
      List.getElem?_set_ne (by simp; omega),
      List.getElem?_append_left (by simp; omega),
      List.getElem?_append_left (by simp; omega),
      List.getElem?_append_left (by simp; omega),
      List.getElem?_append_left hk]

/-- Witness for C10: a two-cell heap holding the inputs is untouched. -/
theorem C10_inputs_unchanged_witness :
    0 < ([Val.vi2 (ex_row 1 fun _ => 0),
      Val.vi3 (ex_offsets 1 fun _ => (0, 0))] : List Val).length ∧
    ((forward_heap (ex_module fun _ => 1)
        [Val.vi2 (ex_row 1 fun _ => 0), Val.vi3 (ex_offsets 1 fun _ => (0, 0))]
        0 0 1 0 none none).1)[0]? =
      ([Val.vi2 (ex_row 1 fun _ => 0),
        Val.vi3 (ex_offsets 1 fun _ => (0, 0))] : List Val)[0]? :=
  ⟨by decide, C10_inputs_unchanged _ _ _ _ _ _ _ _ 0 (by decide)⟩

end MismatchedEmbedder
